import Mathlib

/-!
Verification of `scripts/hf_search_tool.py` (class `HuggingFaceSearch`).

The Python module searches the Hugging Face hub through
`huggingface_hub.list_models` and post-processes the records it gets back.
We embed the pure data flow shallowly:

* an upstream record (`ModelInfo` object) becomes `UpstreamModel`, keeping
  exactly the attributes the script reads (`id`, `pipeline_tag`,
  `downloads`, `likes`); attributes that may be absent or `None` are
  `Option`s;
* the network call `list_models(**search_params)` becomes an arbitrary
  function `list_models : SearchParams → Except String (List UpstreamModel)`,
  where `Except.error` stands for the call raising an exception;
* strings are manipulated through their character lists so that every
  operation is structurally recursive and kernel-evaluable.
-/

/-- One upstream record as the script reads it: `getattr(model, 'id', ...)`,
`getattr(model, 'pipeline_tag', None)`, `getattr(model, 'downloads', 0)`,
`getattr(model, 'likes', 0)`.  A `none` models the attribute being absent
or set to Python `None`. -/
structure UpstreamModel where
  id : String
  pipeline_tag : Option String
  downloads : Option Int
  likes : Option Int
deriving DecidableEq, Repr

/-- The dictionary built by `HuggingFaceSearch._format_model`. -/
structure ModelRecord where
  model_name : String
  task : String
  organization_url : String
  full_model_id : String
  organization : String
  downloads : Int
  likes : Int
deriving DecidableEq, Repr

/-- Split a character list at its first `'/'`: `none` when no `'/'` occurs
(Python `'/' in model_id` is false), otherwise the parts before and after
the first `'/'` (Python `model_id.split('/', 1)`). -/
def splitFirstSlash : List Char → Option (List Char × List Char)
  | [] => none
  | c :: cs =>
    if c = '/' then some ([], cs)
    else
      match splitFirstSlash cs with
      | none => none
      | some (a, b) => some (c :: a, b)

/-- Python truthiness of an optional string: `None` and `""` are falsy. -/
def truthyStr : Option String → Bool
  | none => false
  | some s => s ≠ ""

/-- `HuggingFaceSearch._format_model` (lines 102-137).  The two `try`
blocks around it never fire in this pure model, so the only `None` outcome
is the `if not model_id` guard. -/
def format_model (m : UpstreamModel) : Option ModelRecord :=
  let model_id := m.id
  if model_id = "" then none
  else
    let parts :=
      match splitFirstSlash model_id.data with
      | some (orgChars, nameChars) =>
        let org := String.mk orgChars
        (org, String.mk nameChars, "huggingface.co/" ++ org)
      | none => ("independent", model_id, "huggingface.co")
    let task :=
      match m.pipeline_tag with
      | some t => if t = "" then "other" else t
      | none => "other"
    let downloads :=
      match m.downloads with
      | some d => d
      | none => 0
    let likes :=
      match m.likes with
      | some l => l
      | none => 0
    some
      { model_name := parts.2.1
        task := task
        organization_url := parts.2.2
        full_model_id := model_id
        organization := parts.1
        downloads := downloads
        likes := likes }

/-- ASCII model of `str.lower()` applied characterwise. -/
def lowerChar (c : Char) : Char := c.toLower

/-- Does `needle` occur as a contiguous substring of `hay` (Python
`needle in hay` on strings)? -/
def subOccurs (needle : List Char) : List Char → Bool
  | [] => needle.isEmpty
  | c :: t => needle.isPrefixOf (c :: t) || subOccurs needle t

/-- Python `q.lower() in s.lower()`. -/
def lowerIn (q s : String) : Bool :=
  subOccurs (q.data.map lowerChar) (s.data.map lowerChar)

/-- The keyword arguments assembled for `list_models` (lines 53-70). -/
structure SearchParams where
  sort : String
  direction : Int
  limit : Int
  full : Bool
  task : Option String
  author : Option String
  library : Option String
  search : Option String
  created_at : Option String
deriving DecidableEq, Repr

/-- Lines 53-70: base parameters plus the filters added under `if task:`,
`if organization:`, `if library:`, `if query:`, `if created_after:`. -/
def build_search_params (task organization library query created_after : Option String)
    (sort : String) (direction : Int) (limit : Int) : SearchParams :=
  { sort := sort
    direction := direction
    limit := limit
    full := true
    task := if truthyStr task then task else none
    author := if truthyStr organization then organization else none
    library := if truthyStr library then library else none
    search := if truthyStr query then query else none
    created_at := if truthyStr created_after then created_after else none }

/-- The body of the `for model in models:` loop (lines 78-93) as a step on
the accumulated `results` list.  Note the order in the source: the record
is appended (lines 83-84) *before* the text-query filter runs (lines
86-89), and the filter's `continue` is the last statement of the loop
body, so both branches of the filter leave `results` unchanged. -/
def searchStep (query : Option String) (min_downloads : Int)
    (results : List ModelRecord) (m : UpstreamModel) : List ModelRecord :=
  match format_model m with
  | none => results
  | some model_data =>
    let results1 :=
      if model_data.downloads ≥ min_downloads then results ++ [model_data] else results
    match query with
    | some q =>
      if q ≠ "" ∧ ¬ lowerIn q model_data.model_name ∧ ¬ lowerIn q model_data.full_model_id then
        results1
      else results1
    | none => results1

/-- `HuggingFaceSearch.search` (lines 24-100), parametrised by the
upstream call: `Except.error` models `list_models` (or iterating its
result) raising, which the outer `try` turns into `return []`. -/
def search (list_models : SearchParams → Except String (List UpstreamModel))
    (query task organization library : Option String)
    (sort : String) (direction : Int) (limit : Int)
    (min_downloads : Int) (created_after : Option String) : List ModelRecord :=
  match list_models (build_search_params task organization library query created_after
      sort direction limit) with
  | Except.error _ => []
  | Except.ok models => models.foldl (searchStep query min_downloads) []

/-- `HuggingFaceSearch.search_by_name` (lines 139-141). -/
def search_by_name (list_models : SearchParams → Except String (List UpstreamModel))
    (name : String) (limit : Int) : List ModelRecord :=
  search list_models (some name) none none none "downloads" (-1) limit 0 none

/-- `HuggingFaceSearch.search_by_task` (lines 143-146). -/
def search_by_task (list_models : SearchParams → Except String (List UpstreamModel))
    (task : String) (limit : Int) (popular_only : Bool) : List ModelRecord :=
  let min_downloads : Int := if popular_only then 1000 else 0
  search list_models none (some task) none none "downloads" (-1) limit min_downloads none

/-- `HuggingFaceSearch.search_by_org` (lines 148-150). -/
def search_by_org (list_models : SearchParams → Except String (List UpstreamModel))
    (org : String) (limit : Int) : List ModelRecord :=
  search list_models none none (some org) none "downloads" (-1) limit 0 none

/-- `HuggingFaceSearch.get_popular` (lines 152-154). -/
def get_popular (list_models : SearchParams → Except String (List UpstreamModel))
    (task : Option String) (limit : Int) : List ModelRecord :=
  search list_models none task none none "downloads" (-1) limit 10000 none

/-- `HuggingFaceSearch.get_recent` (lines 156-158). -/
def get_recent (list_models : SearchParams → Except String (List UpstreamModel))
    (task : Option String) (limit : Int) : List ModelRecord :=
  search list_models none task none none "created" (-1) limit 0 (some "2024-01-01")

/-- `HuggingFaceSearch.export_csv` (lines 173-195), modelled as a pure
function returning the file content written (as rows of cells; `none`
when the early return fires and nothing is written) together with the
message printed. -/
def export_csv (results : List ModelRecord) (filename : String) :
    Option (List (List String)) × String :=
  if results = [] then
    (none, "❌ No results to export")
  else
    (some (["model_name", "task", "organization_url"] ::
        results.map fun model => [model.model_name, model.task, model.organization_url]),
      "💾 Exported " ++ toString results.length ++ " models to: " ++ filename)

/-! ### Helper lemmas -/

/-- The text-query filter (lines 86-89) runs after the append and its
`continue` ends the loop body, so the loop step reduces to the download
filter alone. -/
theorem searchStep_eq (query : Option String) (min_downloads : Int)
    (results : List ModelRecord) (m : UpstreamModel) :
    searchStep query min_downloads results m =
      match format_model m with
      | none => results
      | some model_data =>
        if model_data.downloads ≥ min_downloads then results ++ [model_data] else results := by
  unfold searchStep
  cases format_model m with
  | none => rfl
  | some md =>
    cases query with
    | none => rfl
    | some q => simp only [ite_self]

theorem splitFirstSlash_none {l : List Char} (h : splitFirstSlash l = none) : '/' ∉ l := by
  induction l with
  | nil => simp
  | cons c cs ih =>
    unfold splitFirstSlash at h
    by_cases hc : c = '/'
    · simp [hc] at h
    · simp only [hc, if_false] at h
      rcases hs : splitFirstSlash cs with _ | ⟨a, b⟩
      · intro hm
        rcases List.mem_cons.mp hm with h1 | h2
        · exact hc h1.symm
        · exact ih hs h2
      · rw [hs] at h; simp at h

theorem splitFirstSlash_some {l : List Char} {a b : List Char}
    (h : splitFirstSlash l = some (a, b)) : l = a ++ '/' :: b := by
  induction l generalizing a b with
  | nil => simp [splitFirstSlash] at h
  | cons c cs ih =>
    unfold splitFirstSlash at h
    by_cases hc : c = '/'
    · simp only [hc, if_true] at h
      obtain ⟨rfl, rfl⟩ := Prod.mk.injEq .. ▸ Option.some.inj h
      simp [hc]
    · simp only [hc, if_false] at h
      rcases hs : splitFirstSlash cs with _ | ⟨a', b'⟩ <;> rw [hs] at h
      · simp at h
      · simp only [Option.some.injEq, Prod.mk.injEq] at h
        obtain ⟨rfl, rfl⟩ := h
        simpa using ih hs

theorem string_mk_append (a b : List Char) :
    String.mk a ++ String.mk b = String.mk (a ++ b) := rfl

theorem foldl_searchStep_min (query : Option String) (min_downloads : Int) :
    ∀ (models : List UpstreamModel) (acc : List ModelRecord),
      (∀ r ∈ acc, r.downloads ≥ min_downloads) →
      ∀ r ∈ models.foldl (searchStep query min_downloads) acc, r.downloads ≥ min_downloads := by
  intro models
  induction models with
  | nil => intro acc hacc r hr; exact hacc r hr
  | cons m t ih =>
    intro acc hacc r hr
    rw [List.foldl_cons, searchStep_eq] at hr
    refine ih _ ?_ r hr
    cases hfm : format_model m with
    | none => simpa [hfm] using hacc
    | some md =>
      by_cases hd : md.downloads ≥ min_downloads
      · simp only [hfm, hd, if_true]
        intro r' hr'
        rcases List.mem_append.mp hr' with h1 | h2
        · exact hacc r' h1
        · rw [List.mem_singleton.mp h2]; exact hd
      · simpa [hfm, hd] using hacc

theorem foldl_searchStep_sublist (query : Option String) (min_downloads : Int) :
    ∀ (models : List UpstreamModel) (acc : List ModelRecord),
      List.Sublist (models.foldl (searchStep query min_downloads) acc)
        (acc ++ models.filterMap format_model) := by
  intro models
  induction models with
  | nil => intro acc; simp
  | cons m t ih =>
    intro acc
    rw [List.foldl_cons, searchStep_eq]
    cases hfm : format_model m with
    | none => simpa [List.filterMap_cons, hfm] using ih acc
    | some md =>
      by_cases hd : md.downloads ≥ min_downloads
      · simp only [hfm, hd, if_true, List.filterMap_cons]
        simpa [List.append_assoc] using ih (acc ++ [md])
      · simp only [hfm, hd, if_false, List.filterMap_cons]
        exact (ih acc).trans (List.Sublist.append_left (List.sublist_cons_self md _) acc)

/-! ### Claim theorems -/

/-- C1: the claim says every record returned under a non-empty `query` has
`query` as a case-insensitive substring of its `model_name` or
`full_model_id`.  The code appends each record (lines 83-84) *before*
evaluating the query filter (lines 86-89), and the filter's `continue` is
the last statement of the loop body, so it never removes anything: here
`search` with query `"zzz"` returns a record matching neither field. -/
theorem search_query_filter_inoperative :
    search (fun _ => Except.ok [⟨"openai/gpt-2", some "text-generation", some 100, some 5⟩])
        (some "zzz") none none none "downloads" (-1) 50 0 none =
      [⟨"gpt-2", "text-generation", "huggingface.co/openai", "openai/gpt-2", "openai", 100, 5⟩] ∧
    lowerIn "zzz" "gpt-2" = false ∧ lowerIn "zzz" "openai/gpt-2" = false := by
  refine ⟨rfl, ?_, ?_⟩ <;> decide

/-- C2: every record in the list returned by `search` has
`downloads ≥ min_downloads` (the append at line 84 is guarded by the
check at line 83). -/
theorem search_respects_min_downloads
    (list_models : SearchParams → Except String (List UpstreamModel))
    (query task organization library : Option String)
    (sort : String) (direction limit min_downloads : Int) (created_after : Option String)
    (r : ModelRecord)
    (hr : r ∈ search list_models query task organization library sort direction limit
      min_downloads created_after) :
    r.downloads ≥ min_downloads := by
  unfold search at hr
  cases h : list_models (build_search_params task organization library query created_after
      sort direction limit) with
  | error e => rw [h] at hr; exact absurd hr (List.not_mem_nil r)
  | ok models =>
    rw [h] at hr
    exact foldl_searchStep_min query min_downloads models [] (by intro r h0; cases h0) r hr

theorem search_respects_min_downloads_witness :
    (⟨"gpt-2", "text-generation", "huggingface.co/openai", "openai/gpt-2", "openai", 100, 5⟩ :
      ModelRecord).downloads ≥ 7 :=
  search_respects_min_downloads
    (fun _ => Except.ok [⟨"openai/gpt-2", some "text-generation", some 100, some 5⟩])
    none none none none "downloads" (-1) 50 7 none _ (by decide)

/-- C3: when the upstream `list_models` call raises (modelled by
`Except.error`), `search` returns `[]` (lines 98-100) instead of
propagating the exception. -/
theorem search_upstream_error_returns_empty
    (list_models : SearchParams → Except String (List UpstreamModel))
    (query task organization library : Option String)
    (sort : String) (direction limit min_downloads : Int) (created_after : Option String)
    (e : String)
    (h : list_models (build_search_params task organization library query created_after
      sort direction limit) = Except.error e) :
    search list_models query task organization library sort direction limit min_downloads
      created_after = [] := by
  unfold search; rw [h]

theorem search_upstream_error_returns_empty_witness :
    search (fun _ => Except.error "ConnectionError") none none none none
      "downloads" (-1) 50 0 none = [] :=
  search_upstream_error_returns_empty (fun _ => Except.error "ConnectionError")
    none none none none "downloads" (-1) 50 0 none "ConnectionError" rfl

/-- C4: `_format_model` splits an identifier at its first slash:
`"openai/gpt-2"` yields organization `"openai"`, model name `"gpt-2"` and
organization URL `"huggingface.co/openai"`; slashless `"gpt-2"` yields
organization `"independent"`, the whole identifier as model name, and
organization URL `"huggingface.co"`. -/
theorem format_model_split_examples :
    format_model ⟨"openai/gpt-2", some "text-generation", some 100, some 5⟩ =
      some ⟨"gpt-2", "text-generation", "huggingface.co/openai", "openai/gpt-2", "openai",
        100, 5⟩ ∧
    format_model ⟨"gpt-2", some "text-generation", some 100, some 5⟩ =
      some ⟨"gpt-2", "text-generation", "huggingface.co", "gpt-2", "independent", 100, 5⟩ :=
  ⟨rfl, rfl⟩

/-- C5: each convenience wrapper is exactly `search` with its preset
arguments: `search_by_name` sets only the query; `search_by_task` sets
`min_downloads` to 1000 when `popular_only` and 0 otherwise;
`search_by_org` sets only the organization; `get_popular` sets
`min_downloads = 10000` and `sort = "downloads"`; `get_recent` sets
`sort = "created"` and `created_after = "2024-01-01"`; every other
argument keeps `search`'s default. -/
theorem convenience_wrappers_preset_args
    (list_models : SearchParams → Except String (List UpstreamModel))
    (name tsk org : String) (t : Option String) (limit : Int) (popular_only : Bool) :
    search_by_name list_models name limit =
      search list_models (some name) none none none "downloads" (-1) limit 0 none ∧
    search_by_task list_models tsk limit popular_only =
      search list_models none (some tsk) none none "downloads" (-1) limit
        (if popular_only then 1000 else 0) none ∧
    search_by_org list_models org limit =
      search list_models none none (some org) none "downloads" (-1) limit 0 none ∧
    get_popular list_models t limit =
      search list_models none t none none "downloads" (-1) limit 10000 none ∧
    get_recent list_models t limit =
      search list_models none t none none "created" (-1) limit 0 (some "2024-01-01") :=
  ⟨rfl, rfl, rfl, rfl, rfl⟩

/-- C6: `_format_model` defaults `task` to `"other"` when `pipeline_tag`
is absent/`None` or falsy (`""`), and `downloads`/`likes` to 0 when the
attribute is absent or `None` (lines 118-123). -/
theorem format_model_defaults (m : UpstreamModel) (r : ModelRecord)
    (h : format_model m = some r) :
    (m.pipeline_tag = none ∨ m.pipeline_tag = some "" → r.task = "other") ∧
    (m.downloads = none → r.downloads = 0) ∧ (m.likes = none → r.likes = 0) := by
  rw [format_model] at h
  by_cases hid : m.id = ""
  · rw [if_pos hid] at h; cases h
  · rw [if_neg hid] at h
    cases Option.some.inj h
    refine ⟨?_, ?_, ?_⟩
    · rintro (hpt | hpt) <;> simp [hpt]
    · intro hdl; simp [hdl]
    · intro hlk; simp [hlk]

theorem format_model_defaults_witness :
    (⟨"gpt-2", "other", "huggingface.co", "gpt-2", "independent", 0, 0⟩ :
      ModelRecord).task = "other" :=
  (format_model_defaults ⟨"gpt-2", none, none, none⟩
    ⟨"gpt-2", "other", "huggingface.co", "gpt-2", "independent", 0, 0⟩ rfl).1 (Or.inl rfl)

/-- C7: `export_csv` on an empty result list writes no file (the
modelled file content is `none`) and prints the no-results message
(lines 175-177), for every filename. -/
theorem export_csv_empty_no_write (filename : String) :
    export_csv [] filename = (none, "❌ No results to export") := rfl

/-- C8: `export_csv` on a non-empty result list writes the header
`model_name,task,organization_url` followed by one row per record, with
that record's `model_name`, `task` and `organization_url`, in list
order (lines 184-193). -/
theorem export_csv_rows (results : List ModelRecord) (filename : String) (h : results ≠ []) :
    (export_csv results filename).1 =
      some (["model_name", "task", "organization_url"] ::
        results.map fun model => [model.model_name, model.task, model.organization_url]) := by
  unfold export_csv; rw [if_neg h]

theorem export_csv_rows_witness :
    (export_csv [⟨"gpt-2", "other", "huggingface.co", "gpt-2", "independent", 0, 0⟩]
        "results.csv").1 =
      some [["model_name", "task", "organization_url"], ["gpt-2", "other", "huggingface.co"]] :=
  export_csv_rows [⟨"gpt-2", "other", "huggingface.co", "gpt-2", "independent", 0, 0⟩]
    "results.csv" (by decide)

/-- C9 (counterexample): the claim "if `organization` is `"independent"`
then `full_model_id = model_name` and `organization_url = "huggingface.co"`"
fails for the identifier `"independent/x"`: the slash branch fires, so
`organization` is the real organization named `"independent"` while
`full_model_id` keeps the slash. -/
theorem format_model_independent_slash_counterexample :
    ∃ r, format_model ⟨"independent/x", none, none, none⟩ = some r ∧
      r.organization = "independent" ∧ r.full_model_id ≠ r.model_name ∧
      r.organization_url ≠ "huggingface.co" :=
  ⟨⟨"x", "other", "huggingface.co/independent", "independent/x", "independent", 0, 0⟩,
    rfl, rfl, by decide, by decide⟩

/-- C9 (amended): whenever `organization ≠ "independent"`, the identifier
came from the slash branch and `full_model_id = organization ++ "/" ++
model_name`; more precisely, the branch is decided by whether the
identifier contains a slash: with a slash the concatenation identity
holds, and without one `organization = "independent"`, `full_model_id =
model_name` and `organization_url = "huggingface.co"`. -/
theorem format_model_roundtrip (m : UpstreamModel) (r : ModelRecord)
    (h : format_model m = some r) :
    (r.organization ≠ "independent" → r.full_model_id = r.organization ++ "/" ++ r.model_name) ∧
    ('/' ∈ m.id.data → r.full_model_id = r.organization ++ "/" ++ r.model_name) ∧
    ('/' ∉ m.id.data → r.organization = "independent" ∧ r.full_model_id = r.model_name ∧
      r.organization_url = "huggingface.co") := by
  rw [format_model] at h
  by_cases hid : m.id = ""
  · rw [if_pos hid] at h; cases h
  · rw [if_neg hid] at h
    rcases hs : splitFirstSlash m.id.data with _ | ⟨a, b⟩ <;> simp only [hs] at h <;>
      cases Option.some.inj h
    · exact ⟨fun hc => absurd rfl hc, fun hc => absurd hc (splitFirstSlash_none hs),
        fun _ => ⟨rfl, rfl, rfl⟩⟩
    · have hid2 : m.id = String.mk a ++ "/" ++ String.mk b := by
        have h0 : m.id = String.mk m.id.data := rfl
        rw [h0, splitFirstSlash_some hs]
        show String.mk (a ++ '/' :: b) = String.mk ((a ++ ['/']) ++ b)
        congr 1
        simp
      refine ⟨fun _ => hid2, fun _ => hid2, fun hno => absurd ?_ hno⟩
      rw [splitFirstSlash_some hs]
      simp

theorem format_model_roundtrip_witness :
    ("openai/gpt-2" : String) = "openai" ++ "/" ++ "gpt-2" :=
  (format_model_roundtrip ⟨"openai/gpt-2", none, none, none⟩
    ⟨"gpt-2", "other", "huggingface.co/openai", "openai/gpt-2", "openai", 0, 0⟩ rfl).1
    (by decide)

/-- C10: when the upstream call yields `models`, the list returned by
`search` is an order-preserving sublist of the per-record formatted
upstream records, so `search` never reorders, duplicates or synthesizes
records, and its length is at most the number of upstream records. -/
theorem search_sublist_of_upstream
    (list_models : SearchParams → Except String (List UpstreamModel))
    (query task organization library : Option String)
    (sort : String) (direction limit min_downloads : Int) (created_after : Option String)
    (models : List UpstreamModel)
    (h : list_models (build_search_params task organization library query created_after
      sort direction limit) = Except.ok models) :
    List.Sublist (search list_models query task organization library sort direction limit
        min_downloads created_after) (models.filterMap format_model) ∧
    (search list_models query task organization library sort direction limit
        min_downloads created_after).length ≤ models.length := by
  unfold search
  rw [h]
  have hsub := foldl_searchStep_sublist query min_downloads models []
  simp only [List.nil_append] at hsub
  exact ⟨hsub, le_trans hsub.length_le (List.length_filterMap_le _ _)⟩

theorem search_sublist_of_upstream_witness :
    List.Sublist
      (search (fun _ => Except.ok [⟨"openai/gpt-2", some "text-generation", some 100, some 5⟩])
        none none none none "downloads" (-1) 50 0 none)
      ([(⟨"openai/gpt-2", some "text-generation", some 100, some 5⟩ :
          UpstreamModel)].filterMap format_model) ∧
    (search (fun _ => Except.ok [⟨"openai/gpt-2", some "text-generation", some 100, some 5⟩])
        none none none none "downloads" (-1) 50 0 none).length ≤ 1 :=
  search_sublist_of_upstream
    (fun _ => Except.ok [⟨"openai/gpt-2", some "text-generation", some 100, some 5⟩])
    none none none none "downloads" (-1) 50 0 none
    [⟨"openai/gpt-2", some "text-generation", some 100, some 5⟩] rfl
